import Mathlib

/-!
Verification development for the gipWebGL platform-binding layer:
`gWebApp` (AppBinding) and `gWebCanvas` (CanvasBinding).

The repository ships the two class declarations (`gWebApp.h`,
`gWebCanvas.h`); the member-function bodies live outside the given
sources, so the operational behaviour of the methods is modelled from the
specification, while the declaration-level facts (constructor set, empty
private section, doc comments on `pause`/`resume`) come from the headers
themselves.
-/

/-- Device orientation enum of the base framework, as used by
`gWebCanvas::deviceOrientationChanged` (spec data model: Portrait,
PortraitUpsideDown, LandscapeLeft, LandscapeRight, Unknown). -/
inductive DeviceOrientation where
  | portrait
  | portraitUpsideDown
  | landscapeLeft
  | landscapeRight
  | unknown
deriving DecidableEq

/-- A tracked touch point: identity is the platform-supplied `fingerId`,
with surface-local coordinates `x`, `y`. -/
structure TouchContact where
  fingerId : Int
  x : Int
  y : Int
deriving DecidableEq

/-- AppBinding state: `gWebApp` carries the visible-state flag `running`
(spec data model for AppBinding). -/
structure gWebApp where
  running : Bool
deriving DecidableEq

/-- Modelled from the spec: the body of `gWebApp::pause` is not among the
given sources. "pause(): sets running = false." -/
def gWebApp.pause (a : gWebApp) : gWebApp :=
  { a with running := false }

/-- Modelled from the spec: the body of `gWebApp::resume` is not among the
given sources. "resume(): sets running = true." -/
def gWebApp.resume (a : gWebApp) : gWebApp :=
  { a with running := true }

/-- What the base framework does on one frame tick for a given app state. -/
structure FrameTick where
  rendersFrame : Bool
  receivesUpdate : Bool
deriving DecidableEq

/-- Frame-tick behaviour taken from the doc comments in `gWebApp.h`:
after `pause()` the "Application will stop rendering after this but will
still receive updates"; after `resume()` the "Application will continue
rendering". So a tick renders exactly when the app is running, and the
update is delivered regardless. -/
def gWebApp.frameTick (a : gWebApp) : FrameTick :=
  { rendersFrame := a.running, receivesUpdate := true }

/-- The own data members of `gWebCanvas`: its `private:` section in
`gWebCanvas.h` is empty, so this structure has no fields. -/
structure GWebCanvasOwnMembers where
deriving DecidableEq

/-- State held in the base classes (`gBaseCanvas`/`gBaseApp`) that the
canvas binding's operations read and write: the rendering-visibility
flag, the current orientation, and the set of active touch contacts. -/
structure BaseCanvasState where
  renderingActive : Bool
  orientation : DeviceOrientation
  contacts : List TouchContact
deriving DecidableEq

/-- CanvasBinding state: the (empty) own members of `gWebCanvas` plus the
base-framework state it manipulates. -/
structure gWebCanvas where
  own : GWebCanvasOwnMembers
  base : BaseCanvasState
deriving DecidableEq

/-- Insert-or-overwrite a contact for `fid` at `(x, y)`: if a contact with
this `fingerId` is live its position is overwritten in place, otherwise a
new contact is appended. -/
def setContact (x y fid : Int) : List TouchContact → List TouchContact
  | [] => [⟨fid, x, y⟩]
  | c :: cs =>
    if c.fingerId = fid then ⟨fid, x, y⟩ :: cs
    else c :: setContact x y fid cs

/-- Remove every contact with the given `fingerId`. -/
def removeContact (fid : Int) : List TouchContact → List TouchContact
  | [] => []
  | c :: cs =>
    if c.fingerId = fid then removeContact fid cs
    else c :: removeContact fid cs

/-- Look up the live contact with the given `fingerId`, if any. -/
def findContact (fid : Int) : List TouchContact → Option TouchContact
  | [] => none
  | c :: cs => if c.fingerId = fid then some c else findContact fid cs

/-- Modelled from the spec: the body of `gWebCanvas::touchPressed` is not
among the given sources. "registers a new active contact with fingerId";
if the id is already active "the binding overwrites the prior contact's
position rather than failing". -/
def gWebCanvas.touchPressed (x y fid : Int) (c : gWebCanvas) : gWebCanvas :=
  { c with base := { c.base with contacts := setContact x y fid c.base.contacts } }

/-- Modelled from the spec: the body of `gWebCanvas::touchMoved` is not
among the given sources. "updates position for an existing fingerId. If
fingerId is not currently active ... the binding creates the contact
implicitly rather than failing". -/
def gWebCanvas.touchMoved (x y fid : Int) (c : gWebCanvas) : gWebCanvas :=
  { c with base := { c.base with contacts := setContact x y fid c.base.contacts } }

/-- Modelled from the spec: the body of `gWebCanvas::touchReleased` is not
among the given sources. "ends the contact; removes fingerId from the
active set. Releasing an already-inactive id is a no-op." -/
def gWebCanvas.touchReleased (x y fid : Int) (c : gWebCanvas) : gWebCanvas :=
  { c with base := { c.base with contacts := removeContact fid c.base.contacts } }

/-- Modelled from the spec: the body of `gWebCanvas::pause` is not among
the given sources. Transition `Active → Paused`: stops issuing draw
calls; safe to call even if already Paused. -/
def gWebCanvas.pause (c : gWebCanvas) : gWebCanvas :=
  { c with base := { c.base with renderingActive := false } }

/-- Modelled from the spec: the body of `gWebCanvas::resume` is not among
the given sources. Transition `Paused → Active`: resumes draw calls. -/
def gWebCanvas.resume (c : gWebCanvas) : gWebCanvas :=
  { c with base := { c.base with renderingActive := true } }

/-- Modelled from the spec: the body of
`gWebCanvas::deviceOrientationChanged` is not among the given sources.
"updates orientation and forwards the new value to the base framework";
in this model the forwarded value is the orientation field of the base
state. -/
def gWebCanvas.deviceOrientationChanged (o : DeviceOrientation) (c : gWebCanvas) : gWebCanvas :=
  { c with base := { c.base with orientation := o } }

/-- Whether `fid` currently identifies a live contact. -/
def gWebCanvas.isTouchActive (fid : Int) (c : gWebCanvas) : Bool :=
  (findContact fid c.base.contacts).isSome

/-- Integer encoding of the orientation enum at the host boundary. -/
def encodeDeviceOrientation : DeviceOrientation → Int
  | .portrait => 0
  | .portraitUpsideDown => 1
  | .landscapeLeft => 2
  | .landscapeRight => 3
  | .unknown => 4

/-- Decode a raw host-supplied orientation code; `none` for codes outside
the fixed enum domain. -/
def decodeDeviceOrientation (code : Int) : Option DeviceOrientation :=
  if code = 0 then some .portrait
  else if code = 1 then some .portraitUpsideDown
  else if code = 2 then some .landscapeLeft
  else if code = 3 then some .landscapeRight
  else if code = 4 then some .unknown
  else none

/-- A reported integration error carrying the offending raw code. -/
structure IntegrationError where
  badCode : Int
deriving DecidableEq

/-- Modelled from the spec: the host-boundary entry for orientation
changes. "any out-of-domain value is rejected at the boundary"; "a value
outside the four-plus-unknown enum domain is a programming/integration
error and should fail fast (reported to the host integration, not
recovered silently)". -/
def gWebCanvas.deviceOrientationChangedRaw (code : Int) (c : gWebCanvas) :
    Except IntegrationError gWebCanvas :=
  match decodeDeviceOrientation code with
  | some o => Except.ok (c.deviceOrientationChanged o)
  | none => Except.error ⟨code⟩

/-- Combined state of one AppBinding and the CanvasBinding it owns. -/
structure WebSys where
  app : gWebApp
  canvas : gWebCanvas
deriving DecidableEq

/-- Modelled from the spec: one host-delivered event. The host shell
drives both bindings; per the spec, "app-level pause forces canvas-level
pause" and the host sequencing contract is "pause canvas before/with app
pause; resume app before/with canvas resume", so the app-pause event also
pauses the canvas and a canvas-resume event is delivered only while the
app is running. -/
inductive SysStep : WebSys → WebSys → Prop where
  | appPause (s : WebSys) :
      SysStep s ⟨s.app.pause, s.canvas.pause⟩
  | appResume (s : WebSys) :
      SysStep s ⟨s.app.resume, s.canvas⟩
  | canvasPause (s : WebSys) :
      SysStep s ⟨s.app, s.canvas.pause⟩
  | canvasResume (s : WebSys) (h : s.app.running = true) :
      SysStep s ⟨s.app, s.canvas.resume⟩
  | touchPressed (s : WebSys) (x y fid : Int) :
      SysStep s ⟨s.app, s.canvas.touchPressed x y fid⟩
  | touchMoved (s : WebSys) (x y fid : Int) :
      SysStep s ⟨s.app, s.canvas.touchMoved x y fid⟩
  | touchReleased (s : WebSys) (x y fid : Int) :
      SysStep s ⟨s.app, s.canvas.touchReleased x y fid⟩
  | orientationChanged (s : WebSys) (o : DeviceOrientation) :
      SysStep s ⟨s.app, s.canvas.deviceOrientationChanged o⟩

/-- Initial state: the app is constructed running and the canvas starts
`Active` bound to it (spec: "Initial: Active upon construction (bound to
a running AppBinding)"). -/
def initWebSys : WebSys :=
  ⟨⟨true⟩, ⟨⟨⟩, ⟨true, DeviceOrientation.unknown, []⟩⟩⟩

/-- A state reachable from the initial state by host-delivered events. -/
def ReachableWebSys (s : WebSys) : Prop :=
  Relation.ReflTransGen SysStep initWebSys s

/-! ### Helper lemmas about the contact list -/

theorem findContact_setContact_self (x y fid : Int) (cs : List TouchContact) :
    findContact fid (setContact x y fid cs) = some ⟨fid, x, y⟩ := by
  induction cs with
  | nil => simp [setContact, findContact]
  | cons c cs ih =>
    by_cases hc : c.fingerId = fid
    · simp [setContact, hc, findContact]
    · simp [setContact, hc, findContact, ih]

theorem findContact_setContact_of_ne (x y fid g : Int) (cs : List TouchContact)
    (h : g ≠ fid) :
    findContact g (setContact x y fid cs) = findContact g cs := by
  induction cs with
  | nil => simp [setContact, findContact, Ne.symm h]
  | cons c cs ih =>
    by_cases hc : c.fingerId = fid
    · have hg : c.fingerId ≠ g := by rw [hc]; exact Ne.symm h
      simp [setContact, hc, findContact, Ne.symm h, hg]
    · by_cases hcg : c.fingerId = g
      · simp [setContact, hc, findContact, hcg, h]
      · simp [setContact, hc, findContact, hcg, ih]

theorem length_setContact_of_isSome (x y fid : Int) (cs : List TouchContact)
    (h : (findContact fid cs).isSome = true) :
    (setContact x y fid cs).length = cs.length := by
  induction cs with
  | nil => simp [findContact] at h
  | cons c cs ih =>
    by_cases hc : c.fingerId = fid
    · simp [setContact, hc]
    · simp [findContact, hc] at h
      simp [setContact, hc, ih h]

theorem length_setContact_of_none (x y fid : Int) (cs : List TouchContact)
    (h : findContact fid cs = none) :
    (setContact x y fid cs).length = cs.length + 1 := by
  induction cs with
  | nil => simp [setContact]
  | cons c cs ih =>
    by_cases hc : c.fingerId = fid
    · simp [findContact, hc] at h
    · simp [findContact, hc] at h
      simp [setContact, hc, ih h]

theorem map_fingerId_setContact_of_isSome (x y fid : Int) (cs : List TouchContact)
    (h : (findContact fid cs).isSome = true) :
    (setContact x y fid cs).map TouchContact.fingerId =
      cs.map TouchContact.fingerId := by
  induction cs with
  | nil => simp [findContact] at h
  | cons c cs ih =>
    by_cases hc : c.fingerId = fid
    · simp [setContact, hc]
    · simp [findContact, hc] at h
      simp [setContact, hc, ih h]

theorem removeContact_of_none (fid : Int) (cs : List TouchContact)
    (h : findContact fid cs = none) :
    removeContact fid cs = cs := by
  induction cs with
  | nil => simp [removeContact]
  | cons c cs ih =>
    by_cases hc : c.fingerId = fid
    · simp [findContact, hc] at h
    · simp [findContact, hc] at h
      simp [removeContact, hc, ih h]

theorem findContact_removeContact_self (fid : Int) (cs : List TouchContact) :
    findContact fid (removeContact fid cs) = none := by
  induction cs with
  | nil => simp [removeContact, findContact]
  | cons c cs ih =>
    by_cases hc : c.fingerId = fid
    · simp [removeContact, hc, ih]
    · simp [removeContact, hc, findContact, ih]

/-- Reachable-state invariant of the combined system: the canvas never
renders while the owning app is paused. -/
theorem websys_running_false_rendering_false (s : WebSys)
    (hs : ReachableWebSys s) :
    s.app.running = false → s.canvas.base.renderingActive = false := by
  induction hs with
  | refl => intro h; simp [initWebSys] at h
  | tail hab hbc ih =>
    cases hbc with
    | appPause => intro _; simp [gWebCanvas.pause]
    | appResume => intro h; simp [gWebApp.resume] at h
    | canvasPause => intro _; simp [gWebCanvas.pause]
    | canvasResume hrun => intro hr; simp at hr; rw [hrun] at hr; cases hr
    | touchPressed x y fid =>
      intro h; simp at h; simpa [gWebCanvas.touchPressed] using ih h
    | touchMoved x y fid =>
      intro h; simp at h; simpa [gWebCanvas.touchMoved] using ih h
    | touchReleased x y fid =>
      intro h; simp at h; simpa [gWebCanvas.touchReleased] using ih h
    | orientationChanged o =>
      intro h; simp at h; simpa [gWebCanvas.deviceOrientationChanged] using ih h

/-! ### Claim theorems -/

/-- C1: calling `pause()` twice in a row on `gWebApp` or `gWebCanvas`
leaves the state identical to calling it once, and likewise for
`resume()` — both lifecycle operations are idempotent on both bindings. -/
theorem c1_pause_resume_idempotent (a : gWebApp) (c : gWebCanvas) :
    a.pause.pause = a.pause ∧ a.resume.resume = a.resume ∧
    c.pause.pause = c.pause ∧ c.resume.resume = c.resume :=
  ⟨rfl, rfl, rfl, rfl⟩

/-- C2 counterexample: the claim that after `gWebApp.pause()` no frame
tick occurs at all (neither render nor update) is false — per the header
documentation a paused app still receives updates: at the concrete app
state `running = true`, a tick after `pause()` still delivers the
update. -/
theorem c2_counterexample :
    ¬ (((gWebApp.mk true).pause.frameTick).rendersFrame = false ∧
       ((gWebApp.mk true).pause.frameTick).receivesUpdate = false) := by
  decide

/-- C2 (amended): after `gWebApp.pause()` the base framework stops
rendering frames but the application still receives update ticks, until
`resume()` makes frames render again. -/
theorem c2_pause_stops_rendering_updates_continue (a : gWebApp) :
    (a.pause.frameTick).rendersFrame = false ∧
    (a.pause.frameTick).receivesUpdate = true ∧
    (a.resume.frameTick).rendersFrame = true :=
  ⟨rfl, rfl, rfl⟩

/-- Constructor shape declared for `gWebApp`. -/
inductive GWebAppCtorKind where
  | parameterless
  | argcArgv
deriving DecidableEq

/-- One constructor declaration of `gWebApp`, with its C++ deleted flag. -/
structure GWebAppCtorDecl where
  kind : GWebAppCtorKind
  isDeleted : Bool
deriving DecidableEq

/-- The constructor declarations in `gWebApp.h`: `gWebApp();` and
`gWebApp(int argc, char **argv) = delete;`. -/
def gWebAppDeclaredCtors : List GWebAppCtorDecl :=
  [⟨GWebAppCtorKind.parameterless, false⟩, ⟨GWebAppCtorKind.argcArgv, true⟩]

/-- The constructors that can actually be invoked: the non-deleted ones. -/
def gWebAppInvocableCtors : List GWebAppCtorDecl :=
  gWebAppDeclaredCtors.filter (fun d => !d.isDeleted)

/-- C9: `gWebApp` construction is parameterless — the argc/argv
constructor is deleted, so the only invocable constructor is the
parameterless one, and every invocable constructor declaration is of
parameterless kind. -/
theorem c9_parameterless_construction :
    gWebAppInvocableCtors = [⟨GWebAppCtorKind.parameterless, false⟩] ∧
    (∀ d ∈ gWebAppInvocableCtors, d.kind = GWebAppCtorKind.parameterless) := by
  refine ⟨rfl, ?_⟩
  intro d hd
  simp [gWebAppInvocableCtors, gWebAppDeclaredCtors] at hd
  rw [hd]

/-- C9 witness: the parameterless, non-deleted constructor declaration is
invocable and of parameterless kind. -/
theorem c9_parameterless_construction_witness :
    (⟨GWebAppCtorKind.parameterless, false⟩ : GWebAppCtorDecl).kind =
      GWebAppCtorKind.parameterless :=
  c9_parameterless_construction.2 ⟨GWebAppCtorKind.parameterless, false⟩ (by decide)

/-- C10: `gWebCanvas` has no data members of its own (its private section
is empty, so its own-member state has a single value), and every
operation of the canvas binding leaves the own-member component
unchanged: all observable effects live in the base-framework state. -/
theorem c10_no_own_members (c : gWebCanvas) (x y fid : Int)
    (o : DeviceOrientation) (m n : GWebCanvasOwnMembers) :
    m = n ∧
    (c.pause).own = c.own ∧
    (c.resume).own = c.own ∧
    (c.touchPressed x y fid).own = c.own ∧
    (c.touchMoved x y fid).own = c.own ∧
    (c.touchReleased x y fid).own = c.own ∧
    (c.deviceOrientationChanged o).own = c.own :=
  ⟨rfl, rfl, rfl, rfl, rfl, rfl, rfl⟩

/-- C3: over every reachable state of the app/canvas system, whenever the
owning app's `running` flag is false the canvas's `renderingActive` is
false; moreover no canvas operation other than `resume()` ever turns a
false `renderingActive` back to true, so after an app-level pause the
canvas cannot re-enable rendering on its own before `resume()` is
called. -/
theorem c3_pause_propagation_invariant :
    (∀ s : WebSys, ReachableWebSys s → s.app.running = false →
        s.canvas.base.renderingActive = false) ∧
    (∀ (c : gWebCanvas) (x y fid : Int) (o : DeviceOrientation),
        c.base.renderingActive = false →
        (c.pause).base.renderingActive = false ∧
        (c.touchPressed x y fid).base.renderingActive = false ∧
        (c.touchMoved x y fid).base.renderingActive = false ∧
        (c.touchReleased x y fid).base.renderingActive = false ∧
        (c.deviceOrientationChanged o).base.renderingActive = false) := by
  constructor
  · exact websys_running_false_rendering_false
  · intro c x y fid o h
    exact ⟨rfl, h, h, h, h⟩

/-- C3 witness: the state reached from the initial one by a single
app-pause event has a paused app and a non-rendering canvas, and a touch
move on a paused canvas leaves rendering off. -/
theorem c3_pause_propagation_invariant_witness :
    (WebSys.mk initWebSys.app.pause initWebSys.canvas.pause).canvas.base.renderingActive
      = false ∧
    (initWebSys.canvas.pause.touchMoved 1 2 3).base.renderingActive = false :=
  ⟨c3_pause_propagation_invariant.1 ⟨initWebSys.app.pause, initWebSys.canvas.pause⟩
      (Relation.ReflTransGen.single (SysStep.appPause initWebSys)) rfl,
    (c3_pause_propagation_invariant.2 initWebSys.canvas.pause 1 2 3
      DeviceOrientation.unknown rfl).2.2.1⟩

/-- C4: starting from a canvas with no active contacts, the sequence
`touchPressed(10,20,1); touchMoved(15,25,1); touchReleased(15,25,1)`
leaves zero active contacts, and a further `touchReleased(15,25,1)` on
the now-inactive id is a no-op on the whole state. -/
theorem c4_touch_lifecycle (c : gWebCanvas) (h : c.base.contacts = []) :
    (((c.touchPressed 10 20 1).touchMoved 15 25 1).touchReleased 15 25 1).base.contacts
      = [] ∧
    ((((c.touchPressed 10 20 1).touchMoved 15 25 1).touchReleased 15 25 1).touchReleased 15 25 1)
      = (((c.touchPressed 10 20 1).touchMoved 15 25 1).touchReleased 15 25 1) := by
  obtain ⟨own, r, o, cs⟩ := c
  have hcs : cs = [] := h
  subst hcs
  exact ⟨rfl, rfl⟩

/-- C4 witness: the touch lifecycle property at the initial canvas. -/
theorem c4_touch_lifecycle_witness :
    (((initWebSys.canvas.touchPressed 10 20 1).touchMoved 15 25 1).touchReleased 15 25 1).base.contacts
      = [] ∧
    ((((initWebSys.canvas.touchPressed 10 20 1).touchMoved 15 25 1).touchReleased 15 25 1).touchReleased 15 25 1)
      = (((initWebSys.canvas.touchPressed 10 20 1).touchMoved 15 25 1).touchReleased 15 25 1) :=
  c4_touch_lifecycle initWebSys.canvas rfl

/-- C5: if fingerId 7 is not an active contact, `touchMoved(5,5,7)` does
not fail and implicitly creates contact 7, active at position (5,5),
growing the contact set by one. -/
theorem c5_move_creates_contact (c : gWebCanvas)
    (h : c.isTouchActive 7 = false) :
    (c.touchMoved 5 5 7).isTouchActive 7 = true ∧
    findContact 7 (c.touchMoved 5 5 7).base.contacts = some ⟨7, 5, 5⟩ ∧
    (c.touchMoved 5 5 7).base.contacts.length = c.base.contacts.length + 1 := by
  have hn : findContact 7 c.base.contacts = none := by
    cases hfc : findContact 7 c.base.contacts with
    | none => rfl
    | some v => simp [gWebCanvas.isTouchActive, hfc] at h
  refine ⟨?_, ?_, ?_⟩
  · simp [gWebCanvas.isTouchActive, gWebCanvas.touchMoved, findContact_setContact_self]
  · simpa [gWebCanvas.touchMoved] using findContact_setContact_self 5 5 7 c.base.contacts
  · simpa [gWebCanvas.touchMoved] using length_setContact_of_none 5 5 7 c.base.contacts hn

/-- C5 witness: the out-of-order move at the initial canvas, which has no
active contacts. -/
theorem c5_move_creates_contact_witness :
    (initWebSys.canvas.touchMoved 5 5 7).isTouchActive 7 = true ∧
    findContact 7 (initWebSys.canvas.touchMoved 5 5 7).base.contacts = some ⟨7, 5, 5⟩ ∧
    (initWebSys.canvas.touchMoved 5 5 7).base.contacts.length
      = initWebSys.canvas.base.contacts.length + 1 :=
  c5_move_creates_contact initWebSys.canvas rfl

/-- C6: if fingerId `fid` is already active and no two live contacts
share a fingerId, then `touchPressed(x,y,fid)` does not fail: it
overwrites the prior contact's position with `(x,y)`, keeps the number of
contacts unchanged, and preserves uniqueness of live fingerIds. -/
theorem c6_press_overwrites_active (c : gWebCanvas) (x y fid : Int)
    (h : c.isTouchActive fid = true)
    (hnd : (c.base.contacts.map TouchContact.fingerId).Nodup) :
    findContact fid (c.touchPressed x y fid).base.contacts = some ⟨fid, x, y⟩ ∧
    (c.touchPressed x y fid).base.contacts.length = c.base.contacts.length ∧
    ((c.touchPressed x y fid).base.contacts.map TouchContact.fingerId).Nodup := by
  have hs : (findContact fid c.base.contacts).isSome = true := h
  refine ⟨?_, ?_, ?_⟩
  · simpa [gWebCanvas.touchPressed] using findContact_setContact_self x y fid c.base.contacts
  · simpa [gWebCanvas.touchPressed] using
      length_setContact_of_isSome x y fid c.base.contacts hs
  · simpa [gWebCanvas.touchPressed,
      map_fingerId_setContact_of_isSome x y fid c.base.contacts hs] using hnd

/-- C6 witness: pressing again on the already-active fingerId 7 moves it
to (30,40), keeps one contact, and keeps fingerIds unique. -/
theorem c6_press_overwrites_active_witness :
    findContact 7 ((initWebSys.canvas.touchPressed 1 2 7).touchPressed 30 40 7).base.contacts
      = some ⟨7, 30, 40⟩ ∧
    ((initWebSys.canvas.touchPressed 1 2 7).touchPressed 30 40 7).base.contacts.length
      = (initWebSys.canvas.touchPressed 1 2 7).base.contacts.length ∧
    (((initWebSys.canvas.touchPressed 1 2 7).touchPressed 30 40 7).base.contacts.map
        TouchContact.fingerId).Nodup :=
  c6_press_overwrites_active (initWebSys.canvas.touchPressed 1 2 7) 30 40 7
    (by decide) (by decide)

/-- C7: `touchMoved` on one fingerId leaves every other live contact
unchanged, both its stored position and its active status. -/
theorem c7_move_preserves_other_contacts (c : gWebCanvas) (x y f g : Int)
    (h : g ≠ f) :
    findContact g (c.touchMoved x y f).base.contacts =
      findContact g c.base.contacts ∧
    (c.touchMoved x y f).isTouchActive g = c.isTouchActive g := by
  have he := findContact_setContact_of_ne x y f g c.base.contacts h
  exact ⟨by simpa [gWebCanvas.touchMoved] using he,
    by simp [gWebCanvas.isTouchActive, gWebCanvas.touchMoved, he]⟩

/-- C7 witness: after `touchPressed(0,0,1)`, `touchPressed(100,100,2)`
and `touchMoved(1,1,1)`, contact 2 is still live at (100,100). -/
theorem c7_move_preserves_other_contacts_witness :
    findContact 2
        (((initWebSys.canvas.touchPressed 0 0 1).touchPressed 100 100 2).touchMoved 1 1 1).base.contacts
      = some ⟨2, 100, 100⟩ :=
  Eq.trans
    ((c7_move_preserves_other_contacts
        ((initWebSys.canvas.touchPressed 0 0 1).touchPressed 100 100 2)
        1 1 1 2 (by decide)).1)
    (by decide)

/-- C8: `deviceOrientationChanged(o)` stores `o` as the current
orientation (the value forwarded into the base state), so querying it
afterwards returns `o`; at the raw host boundary, every code encoding a
value of the enum domain is accepted and applied, while a code outside
the domain yields a reported integration error instead of being silently
accepted. -/
theorem c8_orientation_stored_and_validated :
    (∀ (c : gWebCanvas) (o : DeviceOrientation),
        (c.deviceOrientationChanged o).base.orientation = o ∧
        c.deviceOrientationChangedRaw (encodeDeviceOrientation o) =
          Except.ok (c.deviceOrientationChanged o)) ∧
    (∀ (code : Int) (c : gWebCanvas),
        (∀ o : DeviceOrientation, encodeDeviceOrientation o ≠ code) →
        c.deviceOrientationChangedRaw code = Except.error ⟨code⟩) := by
  constructor
  · intro c o
    refine ⟨rfl, ?_⟩
    cases o <;> rfl
  · intro code c h
    have h0 : ¬ code = 0 := fun hc => h .portrait (by rw [hc]; rfl)
    have h1 : ¬ code = 1 := fun hc => h .portraitUpsideDown (by rw [hc]; rfl)
    have h2 : ¬ code = 2 := fun hc => h .landscapeLeft (by rw [hc]; rfl)
    have h3 : ¬ code = 3 := fun hc => h .landscapeRight (by rw [hc]; rfl)
    have h4 : ¬ code = 4 := fun hc => h .unknown (by rw [hc]; rfl)
    simp [gWebCanvas.deviceOrientationChangedRaw, decodeDeviceOrientation,
      h0, h1, h2, h3, h4]

/-- C8 witness: setting LandscapeLeft on the initial canvas stores it,
and the out-of-domain raw code 99 is rejected with a reported
integration error. -/
theorem c8_orientation_stored_and_validated_witness :
    (initWebSys.canvas.deviceOrientationChanged DeviceOrientation.landscapeLeft).base.orientation
      = DeviceOrientation.landscapeLeft ∧
    initWebSys.canvas.deviceOrientationChangedRaw 99 = Except.error ⟨99⟩ :=
  ⟨(c8_orientation_stored_and_validated.1 initWebSys.canvas
      DeviceOrientation.landscapeLeft).1,
    c8_orientation_stored_and_validated.2 99 initWebSys.canvas
      (fun o => by cases o <;> decide)⟩
